import Mathlib

/-!
Verification of the ReqGuard prototype's scoring and workflow core.

Shallow embedding of the repository's pure logic:
* `checklists.py`: severity enumeration, checklist tables, `detect_loan_type`,
  `get_checklist_for_loan_type`;
* `agents.py`: `check_against_checklist` (with the language-model backend
  abstracted as an oracle), `calculate_confidence`, `determine_outcome`,
  `generate_questions`;
* `main.py`: the `should_continue` router, the workflow step relation, and the
  resume entry points `approve_and_continue` / `reject_and_refine` modelled as
  the invocation they issue against the state store.

Python floats are modelled as rationals (all constants involved are exact
decimals), Python strings as `String`, Python dicts as association lists in
insertion order (Python 3.7+ dict semantics).
-/

namespace ReqGuard

/-- Python's substring test `pat in s` (on the decoded character sequence). -/
def containsSub (s pat : String) : Bool :=
  s.data.tails.any fun t => pat.data.isPrefixOf t

/-- Python's `str.lower()`: per-character lowercasing (the texts involved are
ASCII, where Python and per-character ASCII lowercasing agree). -/
def strLower (s : String) : String :=
  ⟨s.data.map Char.toLower⟩

/-- Python's `str.upper()`: per-character uppercasing (ASCII range). -/
def strUpper (s : String) : String :=
  ⟨s.data.map Char.toUpper⟩

/-- The `Severity` enum from `checklists.py`. -/
inductive Severity where
  | critical
  | high
  | medium
  | low
deriving DecidableEq, Repr

/-- The string payload `Severity.value` of each enum member. -/
def Severity.value : Severity → String
  | .critical => "critical"
  | .high => "high"
  | .medium => "medium"
  | .low => "low"

/-- The `ChecklistItem` dataclass from `checklists.py`. -/
structure ChecklistItem where
  key : String
  description : String
  severity : Severity
  example_question : String
deriving DecidableEq, Repr

/-- The `LOAN_TYPE_TRIGGERS` table from `checklists.py`, in declared (insertion) order. -/
def LOAN_TYPE_TRIGGERS : List (String × List String) :=
  [("FHA", ["fha", "federal housing", "hud", "mip", "upfront mip", "203b", "203k"]),
   ("VA", ["va", "veteran", "military", "certificate of eligibility", "coe", "funding fee"]),
   ("USDA", ["usda", "rural development", "rural housing", "guaranteed rural"]),
   ("Conventional", ["conventional", "fannie mae", "freddie mac", "conforming", "gse"]),
   ("Jumbo", ["jumbo", "non-conforming", "high balance", "super conforming"]),
   ("Reverse", ["reverse mortgage", "hecm", "home equity conversion"])]

/-- The `CHECKLIST` table from `checklists.py`: category → items, in insertion order. -/
def CHECKLIST : List (String × List ChecklistItem) :=
  [("loan_product",
    [⟨"loan_type", "Loan type clearly specified", .critical,
      "What type of loan is this? (FHA, VA, Conventional, etc.)"⟩,
     ⟨"loan_amount", "Loan amount or range specified", .critical,
      "What is the expected loan amount range?"⟩,
     ⟨"interest_rate_type", "Fixed or adjustable rate specified", .high,
      "Is this a fixed-rate or adjustable-rate mortgage?"⟩,
     ⟨"loan_term", "Loan term specified (15, 20, 30 years)", .high,
      "What loan terms should be supported?"⟩,
     ⟨"ltv_limits", "LTV limits defined", .high,
      "What are the maximum LTV ratios for this product?"⟩]),
   ("borrower",
    [⟨"dti_thresholds", "DTI thresholds defined", .critical,
      "What are the front-end and back-end DTI limits?"⟩,
     ⟨"credit_score", "Minimum credit score requirements", .critical,
      "What is the minimum credit score required?"⟩,
     ⟨"income_verification", "Income verification method specified", .high,
      "How should income be verified? (W2, tax returns, bank statements)"⟩,
     ⟨"employment_history", "Employment history requirements", .medium,
      "What employment history is required?"⟩,
     ⟨"reserves", "Reserve requirements specified", .medium,
      "How many months of reserves are required?"⟩]),
   ("property",
    [⟨"property_types", "Eligible property types listed", .high,
      "What property types are eligible? (SFR, Condo, Multi-unit)"⟩,
     ⟨"occupancy", "Occupancy type specified", .high,
      "What occupancy types are allowed? (Primary, Second home, Investment)"⟩,
     ⟨"appraisal", "Appraisal requirements defined", .high,
      "What are the appraisal requirements?"⟩]),
   ("compliance",
    [⟨"trid_timing", "TRID disclosure timing requirements", .critical,
      "How will TRID timing requirements be enforced?"⟩,
     ⟨"hmda_fields", "HMDA data collection requirements", .critical,
      "Which HMDA fields need to be collected?"⟩,
     ⟨"fair_lending", "Fair lending compliance approach", .critical,
      "How will fair lending compliance be ensured?"⟩,
     ⟨"state_specific", "State-specific requirements noted", .high,
      "Which states will this product be offered in? Any state-specific rules?"⟩])]

/-- Result record of `detect_loan_type`. -/
structure LoanClassification where
  primary_type : String
  all_detected : List String
  confidence : ℚ
deriving DecidableEq, Repr

/-- Translation of `detect_loan_type` from `checklists.py`: lower-case the text,
collect every loan type one of whose triggers occurs as a substring, in
declared order. -/
def detect_loan_type (text : String) : LoanClassification :=
  let text_lower := strLower text
  let detected :=
    (LOAN_TYPE_TRIGGERS.filter fun lt =>
      lt.2.any fun trigger => containsSub text_lower trigger).map Prod.fst
  { primary_type := detected.headD "Conventional"
    all_detected := detected
    confidence := if detected.isEmpty then 1/2 else 9/10 }

/-- The FHA-specific items added by `get_checklist_for_loan_type`. -/
def fhaSpecificItems : List ChecklistItem :=
  [⟨"mip_calculation", "MIP calculation rules", .critical,
    "How should upfront and annual MIP be calculated?"⟩,
   ⟨"fha_limits", "FHA loan limits by county", .high,
    "How will FHA loan limits be determined?"⟩]

/-- The VA-specific items added by `get_checklist_for_loan_type`. -/
def vaSpecificItems : List ChecklistItem :=
  [⟨"entitlement", "VA entitlement verification", .critical,
    "How will VA entitlement be verified?"⟩,
   ⟨"funding_fee", "VA funding fee calculation", .critical,
    "How should the VA funding fee be calculated?"⟩]

/-- Translation of `get_checklist_for_loan_type` from `checklists.py`: copy the
base table and, for FHA/VA, add one extra category under a new key (insertion
at the end). -/
def get_checklist_for_loan_type (loan_type : String) : List (String × List ChecklistItem) :=
  if loan_type = "FHA" then CHECKLIST ++ [("fha_specific", fhaSpecificItems)]
  else if loan_type = "VA" then CHECKLIST ++ [("va_specific", vaSpecificItems)]
  else CHECKLIST

/-- A gap record as built by `ReqGuardCritic.check_against_checklist` in
`agents.py` (a dict with category, key, description, severity, question). -/
structure Gap where
  category : String
  key : String
  description : String
  severity : String
  question : String
deriving DecidableEq, Repr

/-- The gap dict appended for a checklist item judged missing (`agents.py`,
both the structured-verdict branch and the keyword fallback build this). -/
def gapOf (category : String) (item : ChecklistItem) : Gap :=
  { category := category
    key := item.key
    description := item.description
    severity := item.severity.value
    question := item.example_question }

/-- Python's `key.replace("_", " ")` (single-character pattern, so a
per-character map). -/
def underscoreToSpace (s : String) : String :=
  ⟨s.data.map fun c => if c = '_' then ' ' else c⟩

/-- The keyword fallback of `check_against_checklist` (`agents.py` lines
133-144): an item becomes a gap exactly when its key, underscores replaced by
spaces, is not a substring of the lower-cased requirements text. -/
def keywordFallback (requirements_text : String) (category : String)
    (items : List ChecklistItem) : List Gap :=
  items.filterMap fun item =>
    if containsSub (strLower requirements_text) (underscoreToSpace item.key)
    then none
    else some (gapOf category item)

/-- Translation of `ReqGuardCritic.check_against_checklist` from `agents.py`.
The language-model backend is abstracted as an oracle from the category name to
an optional association list of item-key → verdict strings; `none` stands for a
raised exception (call failure or a payload that fails to parse as JSON), which
the `except` branch turns into the keyword fallback. In the success branch an
item is a gap when its verdict (defaulting to "NO" for a missing key),
upper-cased, contains "NO" as a substring. -/
def check_against_checklist (backend : String → Option (List (String × String)))
    (checklist : List (String × List ChecklistItem)) (requirements_text : String) : List Gap :=
  checklist.flatMap fun ci =>
    match backend ci.1 with
    | some results =>
        ci.2.filterMap fun item =>
          let status := strUpper ((results.lookup item.key).getD "NO")
          if containsSub status "NO" then some (gapOf ci.1 item) else none
    | none => keywordFallback requirements_text ci.1 ci.2

/-- The per-gap deduction applied by `calculate_confidence` (`agents.py`):
critical 0.10, high 0.05, medium 0.02, anything else 0. -/
def severityDeduction (severity : String) : ℚ :=
  if severity = "critical" then 10/100
  else if severity = "high" then 5/100
  else if severity = "medium" then 2/100
  else 0

/-- Translation of `calculate_confidence` from `agents.py`: fold the deductions
over the gap list starting from 1.0, floor at 0, subtract the flat critique
penalty (0.20 tier, else 0.10 tier, else 0), and clamp into [0, 1]. -/
def calculate_confidence (gaps : List Gap) (llm_critique : String) : ℚ :=
  let rule_score := gaps.foldl (fun acc gap =>
    if gap.severity = "critical" then acc - 10/100
    else if gap.severity = "high" then acc - 5/100
    else if gap.severity = "medium" then acc - 2/100
    else acc) 1
  let rule_score := max 0 rule_score
  let critique_lower := strLower llm_critique
  let llm_penalty : ℚ :=
    if containsSub critique_lower "catastrophic" || containsSub critique_lower "critical failure"
    then 20/100
    else if containsSub critique_lower "major gap" || containsSub critique_lower "serious"
    then 10/100
    else 0
  let final_score := rule_score - llm_penalty
  max 0 (min 1 final_score)

/-- Translation of `determine_outcome` from `agents.py`. -/
def determine_outcome (confidence : ℚ) : String :=
  if confidence ≥ 95/100 then "complete"
  else if confidence ≥ 70/100 then "partial"
  else "clarify"

/-- The sort key used by `generate_questions` (`agents.py`): the Python dict
lookup with default 4, as an association-list lookup. -/
def severityRank (severity : String) : Nat :=
  ((([("critical", 0), ("high", 1), ("medium", 2), ("low", 3)] :
      List (String × Nat)).lookup severity).getD 4)

/-- A question record emitted by `generate_questions`. -/
structure Question where
  question : String
  severity : String
  category : String
deriving DecidableEq, Repr

/-- Translation of `generate_questions` from `agents.py`: stable-sort the gaps
by severity rank (Python's `sorted` is stable; modelled by `List.mergeSort`,
which is stable), take the first `max_questions`, and project each to a
question record. -/
def generate_questions (gaps : List Gap) (max_questions : Nat := 5) : List Question :=
  let sorted_gaps := gaps.mergeSort fun a b => severityRank a.severity ≤ severityRank b.severity
  (sorted_gaps.take max_questions).map fun gap =>
    { question := gap.question, severity := gap.severity, category := gap.category }

/-- Translation of `should_continue` from `main.py`. The caller supplies the
values after the dict defaults (`approved` defaults to False, `iteration` to 0,
`outcome` to "clarify"). The branches are evaluated in the source's order:
approved, then the iteration cap, then the outcome. -/
def should_continue (approved : Bool) (iteration : Nat) (outcome : String) : String :=
  if approved then "end"
  else if iteration ≥ 3 then "escalate"
  else if outcome = "complete" then "end"
  else if outcome = "partial" then "gate"
  else "gate"

/-- Nodes of the LangGraph workflow built in `create_reqguard_workflow`
(`main.py`); `terminal` stands for END. -/
inductive Node where
  | author
  | critic
  | gate
  | terminal
deriving DecidableEq, Repr

/-- The control-relevant projection of the workflow state (`ReqGuardState` in
`main.py`): current node, iteration counter, approved flag, outcome, and the
terminal reason (the label of the conditional edge that reached END). -/
structure WFState where
  node : Node
  iteration : Nat
  approved : Bool
  outcome : String
  reason : Option String
deriving DecidableEq, Repr

/-- The state update performed by `critic_node` (`main.py`): the iteration
counter is incremented and the outcome recomputed. The new outcome is a
parameter because it derives from language-model output. -/
def criticUpdate (s : WFState) (newOutcome : String) : WFState :=
  { s with iteration := s.iteration + 1, outcome := newOutcome }

/-- The conditional edge out of `critic` (`main.py`): `should_continue` on the
updated state, mapped through the edge table
`{"gate": "gate", "end": END, "escalate": END}`. -/
def routeCritic (s : WFState) : WFState :=
  let decision := should_continue s.approved s.iteration s.outcome
  if decision = "end" then { s with node := .terminal, reason := some "end" }
  else if decision = "escalate" then { s with node := .terminal, reason := some "escalate" }
  else { s with node := .gate }

/-- One step of the workflow of `main.py`: `author` → `critic` unconditionally;
`critic` updates the state and routes through `should_continue`; at the `gate`
interrupt, a resume either approves (the gate edge `"end" if approved else
"author"` then ends) or rejects (back to `author` with `approved` False).
`terminal` (END) has no outgoing step. -/
inductive WFStep : WFState → WFState → Prop where
  | author (s : WFState) (h : s.node = .author) :
      WFStep s { s with node := .critic }
  | critic (s : WFState) (newOutcome : String) (h : s.node = .critic) :
      WFStep s (routeCritic (criticUpdate s newOutcome))
  | gateApprove (s : WFState) (h : s.node = .gate) :
      WFStep s { s with approved := true, node := .terminal, reason := some "end" }
  | gateReject (s : WFState) (h : s.node = .gate) :
      WFStep s { s with approved := false, node := .author }

/-- The initial workflow state of a thread (`run_analysis` invokes with
`iteration` 0 at entry point `author`; `approved` and `outcome` take their dict
defaults False and "clarify"). -/
def initState : WFState :=
  { node := .author, iteration := 0, approved := false, outcome := "clarify", reason := none }

/-- States reachable from the initial state by workflow steps. -/
inductive Reachable : WFState → Prop where
  | init : Reachable initState
  | step {s s' : WFState} : Reachable s → WFStep s s' → Reachable s'

/-- The update dict passed to `app.invoke` on a resume (`main.py`): the keys
that may be present in the input. -/
structure InvokeInput where
  raw_requirements : Option String
  approved : Option Bool
  human_feedback : Option String
deriving DecidableEq, Repr

/-- An invocation issued against the checkpointed graph: a thread id plus the
input dict. -/
structure InvokeCall where
  thread_id : String
  input : InvokeInput
deriving DecidableEq, Repr

/-- The persisted values of a thread as read back by `app.get_state`
(`main.py`); the `raw_requirements` key may be absent even when a checkpoint
exists. -/
structure StoredValues where
  raw_requirements : Option String
deriving DecidableEq, Repr

/-- Translation of `approve_and_continue` from `main.py`: it unconditionally
calls `app.invoke` on the given thread id with input
`{"approved": True, "human_feedback": feedback}`. The function performs no
lookup of the thread in the checkpoint store and has no error branch; its
observable behaviour is the invocation it issues. -/
def approve_and_continue (thread_id feedback : String) : InvokeCall :=
  { thread_id := thread_id
    input := { raw_requirements := none, approved := some true, human_feedback := some feedback } }

/-- Translation of `reject_and_refine` from `main.py`: it reads the stored
state for the thread (`app.get_state` yields empty values for an unknown
thread id, and the code further defaults a missing `raw_requirements` to ""
via `.get`), appends the feedback paragraph, and unconditionally calls
`app.invoke` with the result and `approved` False. There is no existence check
and no error branch. -/
def reject_and_refine (store : String → Option StoredValues)
    (thread_id feedback : String) : InvokeCall :=
  let stored_raw :=
    match store thread_id with
    | some v => v.raw_requirements.getD ""
    | none => ""
  { thread_id := thread_id
    input := { raw_requirements := some (stored_raw ++ "\n\nAdditional context: " ++ feedback)
               approved := some false
               human_feedback := none } }

/-! ### Specification-side reformulations used by the claims -/

/-- The rule score as the specification words it: start at 1.0, subtract the
per-severity deduction for every gap, clamp at a floor of 0 after all
deductions. -/
def ruleScoreSpec (gaps : List Gap) : ℚ :=
  max 0 (1 - (gaps.map fun g => severityDeduction g.severity).sum)

/-- The critique penalty as the specification words it: 0.20 for the
catastrophic tier, else 0.10 for the serious tier, else 0; only the first
matching tier applies. -/
def critiquePenalty (critique : String) : ℚ :=
  if containsSub (strLower critique) "catastrophic"
      || containsSub (strLower critique) "critical failure" then 20/100
  else if containsSub (strLower critique) "major gap"
      || containsSub (strLower critique) "serious" then 10/100
  else 0

/-- The comparison underlying the sort in `generate_questions`: at most the
other gap's severity rank. -/
def gapLE (a b : Gap) : Bool :=
  severityRank a.severity ≤ severityRank b.severity

/-- The stable sort performed by `generate_questions` (Python `sorted` with the
severity-rank key; `List.mergeSort` is the stable sort of the library). -/
def sortedGaps (gaps : List Gap) : List Gap :=
  gaps.mergeSort gapLE

/-- The question record built from a gap by `generate_questions`. -/
def questionOf (gap : Gap) : Question :=
  { question := gap.question, severity := gap.severity, category := gap.category }

/-! ### Helper lemmas -/

/-- The per-gap deduction is never negative. -/
lemma severityDeduction_nonneg (s : String) : 0 ≤ severityDeduction s := by
  unfold severityDeduction
  split_ifs <;> norm_num

/-- The deduction loop of `calculate_confidence` is subtraction of the summed
deductions. -/
lemma foldl_deduct (gaps : List Gap) (init : ℚ) :
    gaps.foldl (fun acc gap =>
      if gap.severity = "critical" then acc - 10/100
      else if gap.severity = "high" then acc - 5/100
      else if gap.severity = "medium" then acc - 2/100
      else acc) init
      = init - (gaps.map fun g => severityDeduction g.severity).sum := by
  induction gaps generalizing init with
  | nil => simp
  | cons g gs ih =>
    simp only [List.foldl_cons, List.map_cons, List.sum_cons, ih, severityDeduction]
    split_ifs <;> ring

/-- Closed form of `calculate_confidence`: clamp of rule score minus penalty. -/
lemma calculate_confidence_eq (gaps : List Gap) (critique : String) :
    calculate_confidence gaps critique
      = max 0 (min 1 (ruleScoreSpec gaps - critiquePenalty critique)) := by
  unfold calculate_confidence ruleScoreSpec critiquePenalty
  rw [foldl_deduct]

/-! ### Claim theorems -/

/-- C1: for every gap list and every critique text, `calculate_confidence`
returns `clamp(rule_score - penalty, 0, 1)`, where the rule score starts at
1.0, subtracts 0.10 per critical gap, 0.05 per high gap, 0.02 per medium gap,
nothing for low or unlisted severities, and is floored at 0.0 after all
deductions; and the penalty is 0.20 for the catastrophic tier, else 0.10 for
the serious tier, else 0, with only the first matching tier applying. -/
theorem C1_confidence_clamp_of_rule_minus_penalty :
    (∀ (gaps : List Gap) (critique : String),
      calculate_confidence gaps critique
        = max 0 (min 1 (ruleScoreSpec gaps - critiquePenalty critique)))
    ∧ severityDeduction "critical" = 10/100
    ∧ severityDeduction "high" = 5/100
    ∧ severityDeduction "medium" = 2/100
    ∧ severityDeduction "low" = 0
    ∧ (∀ s : String, s ∉ (["critical", "high", "medium"] : List String) →
        severityDeduction s = 0) := by
  refine ⟨calculate_confidence_eq, by simp [severityDeduction], by simp [severityDeduction],
    by simp [severityDeduction], by simp [severityDeduction], ?_⟩
  intro s hs
  simp only [List.mem_cons, List.not_mem_nil, or_false, not_or] at hs
  unfold severityDeduction
  rw [if_neg hs.1, if_neg hs.2.1, if_neg hs.2.2]

/-- Witness for C1 at concrete inputs: one critical gap and a critique in the
serious tier give `clamp(0.9 - 0.1, 0, 1)`, and an unlisted severity deducts
nothing. -/
theorem C1_confidence_clamp_witness :
    calculate_confidence [⟨"compliance", "trid_timing", "d", "critical", "q"⟩] "a SERIOUS issue"
      = max 0 (min 1 (ruleScoreSpec [⟨"compliance", "trid_timing", "d", "critical", "q"⟩]
          - critiquePenalty "a SERIOUS issue"))
    ∧ severityDeduction "bogus" = 0 :=
  ⟨C1_confidence_clamp_of_rule_minus_penalty.1 _ _,
   C1_confidence_clamp_of_rule_minus_penalty.2.2.2.2.2 "bogus" (by decide)⟩

/-- C5: the confidence score always lies in [0, 1], and extending the gap list
by one more gap (of any severity) never increases the score for the same
critique text. -/
theorem C5_confidence_bounded_and_monotone :
    ∀ (gaps : List Gap) (critique : String),
      0 ≤ calculate_confidence gaps critique
    ∧ calculate_confidence gaps critique ≤ 1
    ∧ ∀ g : Gap, calculate_confidence (gaps ++ [g]) critique
        ≤ calculate_confidence gaps critique := by
  intro gaps critique
  refine ⟨?_, ?_, ?_⟩
  · rw [calculate_confidence_eq]
    exact le_max_left 0 _
  · rw [calculate_confidence_eq]
    exact max_le (by norm_num) (min_le_left 1 _)
  · intro g
    have hrs : ruleScoreSpec (gaps ++ [g]) ≤ ruleScoreSpec gaps := by
      unfold ruleScoreSpec
      have hd := severityDeduction_nonneg g.severity
      simp only [List.map_append, List.sum_append, List.map_cons, List.map_nil,
        List.sum_cons, List.sum_nil]
      apply max_le_max le_rfl
      linarith
    rw [calculate_confidence_eq, calculate_confidence_eq]
    exact max_le_max le_rfl (min_le_min le_rfl (sub_le_sub_right hrs _))

/-- C8: `determine_outcome` maps scores at least 0.95 to "complete", scores in
[0.70, 0.95) to "partial", scores below 0.70 to "clarify"; in particular 0.95
gives "complete", 0.949999 gives "partial", 0.70 gives "partial" and 0.699999
gives "clarify". -/
theorem C8_outcome_thresholds :
    (∀ c : ℚ, 95/100 ≤ c → determine_outcome c = "complete")
  ∧ (∀ c : ℚ, 70/100 ≤ c → c < 95/100 → determine_outcome c = "partial")
  ∧ (∀ c : ℚ, c < 70/100 → determine_outcome c = "clarify")
  ∧ determine_outcome (95/100) = "complete"
  ∧ determine_outcome (949999/1000000) = "partial"
  ∧ determine_outcome (70/100) = "partial"
  ∧ determine_outcome (699999/1000000) = "clarify" := by
  refine ⟨?_, ?_, ?_, by norm_num [determine_outcome], by norm_num [determine_outcome],
    by norm_num [determine_outcome], by norm_num [determine_outcome]⟩
  · intro c h
    unfold determine_outcome
    rw [if_pos h]
  · intro c h1 h2
    unfold determine_outcome
    rw [if_neg (by exact not_le.mpr h2), if_pos h1]
  · intro c h
    unfold determine_outcome
    rw [if_neg (by exact not_le.mpr (lt_trans h (by norm_num))),
      if_neg (by exact not_le.mpr h)]

/-- With the approved flag set, `should_continue` ends the thread. -/
lemma should_continue_approved (i : Nat) (o : String) :
    should_continue true i o = "end" := by
  unfold should_continue
  simp

/-- Without approval, once the iteration counter reaches 3 the router
escalates. -/
lemma should_continue_escalate {i : Nat} (o : String) (h : 3 ≤ i) :
    should_continue false i o = "escalate" := by
  unfold should_continue
  simp [h]

/-- Without approval and below the cap, a "complete" outcome ends the
thread. -/
lemma should_continue_complete {i : Nat} (h : i < 3) :
    should_continue false i "complete" = "end" := by
  unfold should_continue
  simp [Nat.not_le.mpr h]

/-- Without approval and below the cap, any outcome other than "complete" goes
to the gate. -/
lemma should_continue_gate {i : Nat} {o : String} (h : i < 3) (ho : o ≠ "complete") :
    should_continue false i o = "gate" := by
  unfold should_continue
  rw [if_neg (by simp), if_neg (Nat.not_le.mpr h), if_neg ho]
  split_ifs <;> rfl

/-- Routing out of the critic never changes the iteration counter. -/
lemma routeCritic_iteration (s : WFState) : (routeCritic s).iteration = s.iteration := by
  simp only [routeCritic]
  split_ifs <;> rfl

/-- If routing out of the critic lands on the gate, the iteration counter was
still below the cap. -/
lemma routeCritic_gate_iter {s : WFState} (h : (routeCritic s).node = .gate) :
    s.iteration < 3 := by
  by_contra hnot
  push_neg at hnot
  simp only [routeCritic] at h
  cases ha : s.approved with
  | true => rw [ha, should_continue_approved] at h; simp at h
  | false => rw [ha, should_continue_escalate s.outcome hnot] at h; simp at h

/-- Invariant of the workflow: at the author, critic and gate nodes of any
reachable state the iteration counter is at most 2. -/
lemma reachable_iteration_le {s : WFState} (h : Reachable s) :
    s.node = .author ∨ s.node = .critic ∨ s.node = .gate → s.iteration ≤ 2 := by
  induction h with
  | init => intro _; norm_num [initState]
  | @step s s' _ hs ih =>
    cases hs with
    | author h => intro _; exact ih (Or.inl h)
    | critic newOutcome h =>
        intro hnode
        have hgate : (routeCritic (criticUpdate s newOutcome)).node = .gate := by
          rcases hnode with h1 | h1 | h1
          · exact absurd h1 (by simp only [routeCritic]; split_ifs <;> simp)
          · exact absurd h1 (by simp only [routeCritic]; split_ifs <;> simp)
          · exact h1
        have := routeCritic_gate_iter hgate
        rw [routeCritic_iteration]
        unfold criticUpdate at this ⊢
        simp only at this ⊢
        omega
    | gateApprove h => intro hnode; simp at hnode
    | gateReject h => intro _; exact ih (Or.inr (Or.inr h))

/-- Witness for C8 at concrete scores in each band. -/
theorem C8_outcome_thresholds_witness :
    determine_outcome 1 = "complete"
    ∧ determine_outcome (80/100) = "partial"
    ∧ determine_outcome (1/2) = "clarify" :=
  ⟨C8_outcome_thresholds.1 1 (by norm_num),
   C8_outcome_thresholds.2.1 (80/100) (by norm_num) (by norm_num),
   C8_outcome_thresholds.2.2.1 (1/2) (by norm_num)⟩

/-- C2: the transition out of the critic evaluates, in order, the approved
flag (terminal "end"), the iteration cap of 3 (terminal "escalate"), the
"complete" outcome (terminal "end"), and otherwise goes to the gate; a thread
reaching iteration 3 without approval and without a "complete" outcome
terminates with reason "escalate"; the iteration counter never decreases
across workflow steps; and no reachable author state has iteration 3 or more
(so a fourth author pass never runs). -/
theorem C2_critic_router_and_escalation :
    (∀ (i : Nat) (o : String), should_continue true i o = "end")
  ∧ (∀ (i : Nat) (o : String), 3 ≤ i → should_continue false i o = "escalate")
  ∧ (∀ i : Nat, i < 3 → should_continue false i "complete" = "end")
  ∧ (∀ (i : Nat) (o : String), i < 3 → o ≠ "complete" → should_continue false i o = "gate")
  ∧ (∀ (s : WFState) (newOutcome : String), s.node = .critic → s.approved = false →
      2 ≤ s.iteration → newOutcome ≠ "complete" →
        (routeCritic (criticUpdate s newOutcome)).node = .terminal
      ∧ (routeCritic (criticUpdate s newOutcome)).reason = some "escalate")
  ∧ (∀ s s' : WFState, WFStep s s' → s.iteration ≤ s'.iteration)
  ∧ (∀ s : WFState, Reachable s → s.node = .author → s.iteration < 3) := by
  refine ⟨should_continue_approved, fun i o h => should_continue_escalate o h,
    fun i h => should_continue_complete h, fun i o h ho => should_continue_gate h ho,
    ?_, ?_, ?_⟩
  · intro s newOutcome hnode happ hiter ho
    have hd : routeCritic (criticUpdate s newOutcome)
        = { node := .terminal, iteration := s.iteration + 1, approved := s.approved,
            outcome := newOutcome, reason := some "escalate" } := by
      simp only [routeCritic, criticUpdate]
      rw [happ, should_continue_escalate newOutcome (by omega)]
      simp
    rw [hd]
    exact ⟨rfl, rfl⟩
  · intro s s' h
    cases h with
    | author h => exact le_rfl
    | critic newOutcome h =>
        rw [routeCritic_iteration]
        simp only [criticUpdate]
        omega
    | gateApprove h => exact le_rfl
    | gateReject h => exact le_rfl
  · intro s hr hn
    have := reachable_iteration_le hr (Or.inl hn)
    omega

/-- Witness for C2 at concrete inputs: the router's four branches, an
escalating critic pass at iteration 2, a concrete monotone step, and the
initial author state. -/
theorem C2_critic_router_witness :
    should_continue true 0 "clarify" = "end"
  ∧ should_continue false 3 "clarify" = "escalate"
  ∧ should_continue false 1 "complete" = "end"
  ∧ should_continue false 1 "partial" = "gate"
  ∧ (routeCritic (criticUpdate ⟨.critic, 2, false, "partial", none⟩ "clarify")).node = .terminal
  ∧ (routeCritic (criticUpdate ⟨.critic, 2, false, "partial", none⟩ "clarify")).reason
      = some "escalate"
  ∧ initState.iteration ≤ ({ initState with node := .critic } : WFState).iteration
  ∧ initState.iteration < 3 :=
  ⟨C2_critic_router_and_escalation.1 0 "clarify",
   C2_critic_router_and_escalation.2.1 3 "clarify" (by norm_num),
   C2_critic_router_and_escalation.2.2.1 1 (by norm_num),
   C2_critic_router_and_escalation.2.2.2.1 1 "partial" (by norm_num) (by decide),
   (C2_critic_router_and_escalation.2.2.2.2.1 ⟨.critic, 2, false, "partial", none⟩ "clarify"
     rfl rfl (by norm_num) (by decide)).1,
   (C2_critic_router_and_escalation.2.2.2.2.1 ⟨.critic, 2, false, "partial", none⟩ "clarify"
     rfl rfl (by norm_num) (by decide)).2,
   C2_critic_router_and_escalation.2.2.2.2.2.1 initState _ (WFStep.author initState rfl),
   C2_critic_router_and_escalation.2.2.2.2.2.2 initState Reachable.init rfl⟩

/-- A `filterMap` that keeps exactly the elements failing a test is
filter-then-map. -/
lemma filterMap_if_eq_filter_map {α β : Type} (p : α → Bool) (f : α → β) (l : List α) :
    (l.filterMap fun a => if p a then none else some (f a))
      = (l.filter fun a => !p a).map f := by
  induction l with
  | nil => rfl
  | cons a l ih =>
    by_cases h : p a <;> simp [List.filterMap_cons, List.filter_cons, h, ih]

/-- The keyword fallback in filter-then-map form. -/
lemma keywordFallback_eq (text category : String) (items : List ChecklistItem) :
    keywordFallback text category items
      = (items.filter fun item =>
          !(containsSub (strLower text) (underscoreToSpace item.key))).map (gapOf category) := by
  unfold keywordFallback
  exact filterMap_if_eq_filter_map _ _ items

/-- C3: when the backend errors (or its payload fails to parse), the gap
checker resolves every checklist item by the keyword rule — the item is a gap
exactly when its key, underscores replaced by spaces, is not a substring of
the lower-cased requirements text — and the function returns a gap list
normally for every requirements text and checklist. -/
theorem C3_backend_failure_keyword_fallback :
    ∀ (backend : String → Option (List (String × String)))
      (checklist : List (String × List ChecklistItem)) (requirements_text : String),
      (∀ category, backend category = none) →
      check_against_checklist backend checklist requirements_text
        = checklist.flatMap fun ci =>
            (ci.2.filter fun item =>
              !(containsSub (strLower requirements_text) (underscoreToSpace item.key))).map
              (gapOf ci.1) := by
  intro backend checklist text h
  unfold check_against_checklist
  simp only [h, keywordFallback_eq]

/-- Witness for C3: a backend that always fails, the full base checklist and a
concrete requirements text. -/
theorem C3_backend_failure_fallback_witness :
    check_against_checklist (fun _ => none) CHECKLIST "The loan amount and credit score are set"
      = CHECKLIST.flatMap fun ci =>
          (ci.2.filter fun item =>
            !(containsSub (strLower "The loan amount and credit score are set")
                (underscoreToSpace item.key))).map (gapOf ci.1) :=
  C3_backend_failure_keyword_fallback (fun _ => none) CHECKLIST
    "The loan amount and credit score are set" (fun _ => rfl)

/-- C4 (refuted; the code proceeds instead of failing): with no persisted state
for a thread id, `reject_and_refine` defaults the stored requirements to the
empty string and issues a fresh workflow invocation against that id, and
`approve_and_continue` issues its invocation unconditionally; neither surfaces
a NotFound-style error — no error branch exists in either function. -/
theorem C4_resume_without_state_issues_fresh_invoke :
    ∀ (store : String → Option StoredValues) (thread_id feedback : String),
      store thread_id = none →
      reject_and_refine store thread_id feedback
        = { thread_id := thread_id
            input := { raw_requirements := some ("\n\nAdditional context: " ++ feedback)
                       approved := some false
                       human_feedback := none } }
    ∧ approve_and_continue thread_id feedback
        = { thread_id := thread_id
            input := { raw_requirements := none
                       approved := some true
                       human_feedback := some feedback } } := by
  intro store tid fb h
  constructor
  · unfold reject_and_refine
    rw [h]
    rfl
  · rfl

/-- Witness for C4 at a concrete unknown thread id and empty store: the reject
path builds requirements from the feedback alone and proceeds. -/
theorem C4_resume_without_state_witness :
    reject_and_refine (fun _ => none) "ghost-thread" "please add DTI limits"
      = { thread_id := "ghost-thread"
          input := { raw_requirements := some ("\n\nAdditional context: " ++ "please add DTI limits")
                     approved := some false
                     human_feedback := none } }
    ∧ approve_and_continue "ghost-thread" "please add DTI limits"
      = { thread_id := "ghost-thread"
          input := { raw_requirements := none
                     approved := some true
                     human_feedback := some "please add DTI limits" } } :=
  C4_resume_without_state_issues_fresh_invoke (fun _ => none) "ghost-thread"
    "please add DTI limits" rfl

/-- A text matching some trigger of a table entry puts the entry's tag into
`all_detected`. -/
lemma detect_mem_of_match {text : String} {entry : String × List String} {trig : String}
    (he : entry ∈ LOAN_TYPE_TRIGGERS) (ht : trig ∈ entry.2)
    (hc : containsSub (strLower text) trig = true) :
    entry.1 ∈ (detect_loan_type text).all_detected := by
  unfold detect_loan_type
  exact List.mem_map.mpr
    ⟨entry, List.mem_filter.mpr ⟨he, List.any_eq_true.mpr ⟨trig, ht, hc⟩⟩, rfl⟩

/-- A nonempty detection list forces the matched-case confidence 0.9. -/
lemma detect_confidence_of_ne_nil {text : String}
    (h : (detect_loan_type text).all_detected ≠ []) :
    (detect_loan_type text).confidence = 9/10 := by
  unfold detect_loan_type at h ⊢
  simp only at h ⊢
  rw [if_neg (by simpa using h)]

/-- C6: `detect_loan_type` is case-insensitive (it depends on the text only
through its lower-casing); with no matching trigger it returns primary type
"Conventional", confidence 0.5 and empty `all_detected`; with any match it
returns confidence 0.9, a nonempty `all_detected` containing every matched
tag; and the primary type is always the first matching tag in the trigger
table's declared order (default "Conventional"). -/
theorem C6_detect_loan_type_behaviour :
    (∀ s t : String, strLower s = strLower t → detect_loan_type s = detect_loan_type t)
  ∧ (∀ text : String,
      (∀ entry ∈ LOAN_TYPE_TRIGGERS, ∀ trig ∈ entry.2,
        containsSub (strLower text) trig = false) →
      detect_loan_type text = ⟨"Conventional", [], 1/2⟩)
  ∧ (∀ text : String, ∀ entry ∈ LOAN_TYPE_TRIGGERS, ∀ trig ∈ entry.2,
      containsSub (strLower text) trig = true →
        (detect_loan_type text).confidence = 9/10
      ∧ (detect_loan_type text).all_detected ≠ []
      ∧ entry.1 ∈ (detect_loan_type text).all_detected)
  ∧ (∀ text : String, (detect_loan_type text).primary_type
      = (((LOAN_TYPE_TRIGGERS.find? fun lt =>
            lt.2.any fun trigger => containsSub (strLower text) trigger).map Prod.fst).getD
          "Conventional")) := by
  refine ⟨?_, ?_, ?_, ?_⟩
  · intro s t h
    unfold detect_loan_type
    rw [h]
  · intro text h
    have hf : (LOAN_TYPE_TRIGGERS.filter fun lt =>
        lt.2.any fun trigger => containsSub (strLower text) trigger) = [] := by
      rw [List.filter_eq_nil_iff]
      intro entry he
      have h' := h entry he
      simp only [Bool.not_eq_true, List.any_eq_false]
      intro trig htrig
      simp [h' trig htrig]
    simp only [detect_loan_type]
    rw [hf]
    rfl
  · intro text entry he trig htrig hc
    have hm := detect_mem_of_match he htrig hc
    have hne := List.ne_nil_of_mem hm
    exact ⟨detect_confidence_of_ne_nil hne, hne, hm⟩
  · intro text
    simp only [detect_loan_type, List.headD_eq_head?_getD, List.head?_map, List.filter_head?]

/-- Witness for C6 at concrete texts: case variants agree, an unmatched text
gives the default, a matched text gives the 0.9 record, and a concrete primary
type equals the first match in declared order. -/
theorem C6_detect_loan_type_witness :
    detect_loan_type "FHA loan" = detect_loan_type "fha LOAN"
  ∧ detect_loan_type "hello world" = ⟨"Conventional", [], 1/2⟩
  ∧ ((detect_loan_type "usda rural housing program").confidence = 9/10
      ∧ (detect_loan_type "usda rural housing program").all_detected ≠ []
      ∧ "USDA" ∈ (detect_loan_type "usda rural housing program").all_detected)
  ∧ (detect_loan_type "a jumbo or hecm product").primary_type
      = (((LOAN_TYPE_TRIGGERS.find? fun lt =>
            lt.2.any fun trigger =>
              containsSub (strLower "a jumbo or hecm product") trigger).map Prod.fst).getD
          "Conventional") :=
  ⟨C6_detect_loan_type_behaviour.1 "FHA loan" "fha LOAN" (by decide),
   C6_detect_loan_type_behaviour.2.1 "hello world" (by decide),
   C6_detect_loan_type_behaviour.2.2.1 "usda rural housing program"
     ("USDA", ["usda", "rural development", "rural housing", "guaranteed rural"])
     (by decide) "usda" (by decide) (by decide),
   C6_detect_loan_type_behaviour.2.2.2 "a jumbo or hecm product"⟩

/-- C10: trigger matching is raw substring containment without word
boundaries — any text whose lower-casing contains "va" (such as one containing
"available") picks up the "VA" tag and the matched confidence 0.9. -/
theorem C10_va_substring_containment :
    ∀ text : String, containsSub (strLower text) "va" = true →
      "VA" ∈ (detect_loan_type text).all_detected
    ∧ (detect_loan_type text).confidence = 9/10 := by
  intro text h
  have he : ("VA", ["va", "veteran", "military", "certificate of eligibility", "coe",
      "funding fee"]) ∈ LOAN_TYPE_TRIGGERS := by decide
  have hm := detect_mem_of_match he (by decide) h
  exact ⟨hm, detect_confidence_of_ne_nil (List.ne_nil_of_mem hm)⟩

/-- Witness for C10: a text containing "available" and "approval" and no loan
product mention still detects "VA" with confidence 0.9. -/
theorem C10_va_substring_witness :
    "VA" ∈ (detect_loan_type "New rates available upon approval").all_detected
    ∧ (detect_loan_type "New rates available upon approval").confidence = 9/10 :=
  C10_va_substring_containment "New rates available upon approval" (by decide)

/-- C7: the FHA checklist carries the extra "fha_specific" category, which is
absent for "Conventional" and for every other tag; the base table is a prefix
of every result (no mutation of the shared base across calls, so base
categories are unchanged for any later call), lookups of base categories are
unchanged for every tag, and unknown tags receive exactly the base set. -/
theorem C7_checklist_extension_frame :
    ((get_checklist_for_loan_type "FHA").lookup "fha_specific" = some fhaSpecificItems)
  ∧ ((get_checklist_for_loan_type "Conventional").lookup "fha_specific" = none)
  ∧ (∀ t : String, t ≠ "FHA" → (get_checklist_for_loan_type t).lookup "fha_specific" = none)
  ∧ (∀ t : String, CHECKLIST <+: get_checklist_for_loan_type t)
  ∧ (∀ t k : String, (CHECKLIST.lookup k).isSome →
      (get_checklist_for_loan_type t).lookup k = CHECKLIST.lookup k)
  ∧ (∀ t : String, t ≠ "FHA" → t ≠ "VA" → get_checklist_for_loan_type t = CHECKLIST) := by
  refine ⟨by rfl, by rfl, ?_, ?_, ?_, ?_⟩
  · intro t ht
    unfold get_checklist_for_loan_type
    rw [if_neg ht]
    by_cases hv : t = "VA"
    · rw [if_pos hv]
      rfl
    · rw [if_neg hv]
      rfl
  · intro t
    unfold get_checklist_for_loan_type
    split_ifs
    · exact ⟨_, rfl⟩
    · exact ⟨_, rfl⟩
    · exact ⟨[], List.append_nil _⟩
  · intro t k h
    obtain ⟨v, hv⟩ := Option.isSome_iff_exists.mp h
    unfold get_checklist_for_loan_type
    split_ifs
    · rw [List.lookup_append, hv]
      rfl
    · rw [List.lookup_append, hv]
      rfl
    · rfl
  · intro t h1 h2
    unfold get_checklist_for_loan_type
    rw [if_neg h1, if_neg h2]

/-- Witness for C7 at concrete tags: "Jumbo" lacks "fha_specific", the base is
a prefix of the VA result, a base-category lookup is unchanged for "VA", and
"USDA" receives exactly the base set. -/
theorem C7_checklist_extension_witness :
    (get_checklist_for_loan_type "Jumbo").lookup "fha_specific" = none
  ∧ CHECKLIST <+: get_checklist_for_loan_type "VA"
  ∧ (get_checklist_for_loan_type "VA").lookup "borrower" = CHECKLIST.lookup "borrower"
  ∧ get_checklist_for_loan_type "USDA" = CHECKLIST :=
  ⟨C7_checklist_extension_frame.2.2.1 "Jumbo" (by decide),
   C7_checklist_extension_frame.2.2.2.1 "VA",
   C7_checklist_extension_frame.2.2.2.2.1 "VA" "borrower" (by decide),
   C7_checklist_extension_frame.2.2.2.2.2 "USDA" (by decide) (by decide)⟩

/-- The gap comparison is transitive. -/
lemma gapLE_trans (a b c : Gap) : gapLE a b → gapLE b c → gapLE a c := by
  simp only [gapLE, decide_eq_true_eq]
  omega

/-- The gap comparison is total. -/
lemma gapLE_total (a b : Gap) : gapLE a b || gapLE b a := by
  simp only [gapLE, Bool.or_eq_true, decide_eq_true_eq]
  omega

/-- C9: `generate_questions` emits at most `max_questions` records, each the
{question, severity, category} projection of a gap; the emitted records are
the projections of the first `max_questions` gaps of the stable sort by
severity rank (critical 0, high 1, medium 2, low 3, anything else 4): that
sort is ordered by rank, is a permutation of the input, and preserves the
input order within each rank, so equal-severity gaps are never reordered. -/
theorem C9_generate_questions_stable_top :
    ∀ (gaps : List Gap) (max_questions : Nat),
      (generate_questions gaps max_questions).length ≤ max_questions
    ∧ generate_questions gaps max_questions
        = ((sortedGaps gaps).take max_questions).map questionOf
    ∧ (sortedGaps gaps).Pairwise
        (fun a b => severityRank a.severity ≤ severityRank b.severity)
    ∧ (∀ r : Nat, (sortedGaps gaps).filter (fun g => severityRank g.severity = r)
        = gaps.filter (fun g => severityRank g.severity = r))
    ∧ (sortedGaps gaps).Perm gaps
    ∧ severityRank "critical" = 0 ∧ severityRank "high" = 1
    ∧ severityRank "medium" = 2 ∧ severityRank "low" = 3
    ∧ (∀ s : String, s ∉ (["critical", "high", "medium", "low"] : List String) →
        severityRank s = 4) := by
  intro gaps max_questions
  refine ⟨?_, rfl, ?_, ?_, List.mergeSort_perm gaps gapLE, rfl, rfl, rfl, rfl, ?_⟩
  · simp only [generate_questions, List.length_map, List.length_take]
    exact min_le_left _ _
  · exact (List.sorted_mergeSort gapLE_trans gapLE_total gaps).imp
      (fun h => by simpa [gapLE] using h)
  · intro r
    have hsub : List.Sublist (gaps.filter (fun g => severityRank g.severity = r))
        (sortedGaps gaps) := by
      apply List.sublist_mergeSort gapLE_trans gapLE_total
      · apply List.pairwise_of_forall_mem_list
        intro a ha b hb
        have ha' := (List.mem_filter.mp ha).2
        have hb' := (List.mem_filter.mp hb).2
        simp only [decide_eq_true_eq] at ha' hb'
        simp [gapLE, ha', hb']
      · exact List.filter_sublist gaps
    have hff : (gaps.filter (fun g => severityRank g.severity = r)).filter
        (fun g => severityRank g.severity = r)
        = gaps.filter (fun g => severityRank g.severity = r) :=
      List.filter_eq_self.mpr fun a ha => (List.mem_filter.mp ha).2
    have hsub2 : List.Sublist (gaps.filter (fun g => severityRank g.severity = r))
        ((sortedGaps gaps).filter (fun g => severityRank g.severity = r)) := by
      have := hsub.filter (fun g => severityRank g.severity = r)
      rwa [hff] at this
    have hperm : ((sortedGaps gaps).filter (fun g => severityRank g.severity = r)).Perm
        (gaps.filter (fun g => severityRank g.severity = r)) :=
      (List.mergeSort_perm gaps gapLE).filter _
    exact (hsub2.eq_of_length hperm.length_eq.symm).symm
  · intro s hs
    simp only [List.mem_cons, List.not_mem_nil, or_false, not_or] at hs
    obtain ⟨h1, h2, h3, h4⟩ := hs
    have e1 : (s == "critical") = false := beq_eq_false_iff_ne.mpr h1
    have e2 : (s == "high") = false := beq_eq_false_iff_ne.mpr h2
    have e3 : (s == "medium") = false := beq_eq_false_iff_ne.mpr h3
    have e4 : (s == "low") = false := beq_eq_false_iff_ne.mpr h4
    simp [severityRank, List.lookup, e1, e2, e3, e4]

/-- Witness for C9 at a concrete gap list with two equal-severity gaps: the
cap, the stability filter at rank 0, and an unlisted severity rank. -/
theorem C9_generate_questions_witness :
    (generate_questions [⟨"c", "k1", "d", "low", "q1"⟩, ⟨"c", "k2", "d", "critical", "q2"⟩,
        ⟨"c", "k3", "d", "critical", "q3"⟩] 2).length ≤ 2
  ∧ ((sortedGaps [⟨"c", "k1", "d", "low", "q1"⟩, ⟨"c", "k2", "d", "critical", "q2"⟩,
        ⟨"c", "k3", "d", "critical", "q3"⟩]).filter (fun g => severityRank g.severity = 0)
      = ([⟨"c", "k1", "d", "low", "q1"⟩, ⟨"c", "k2", "d", "critical", "q2"⟩,
          ⟨"c", "k3", "d", "critical", "q3"⟩] : List Gap).filter
          (fun g => severityRank g.severity = 0))
  ∧ severityRank "unknown" = 4 :=
  ⟨(C9_generate_questions_stable_top [⟨"c", "k1", "d", "low", "q1"⟩,
      ⟨"c", "k2", "d", "critical", "q2"⟩, ⟨"c", "k3", "d", "critical", "q3"⟩] 2).1,
   (C9_generate_questions_stable_top [⟨"c", "k1", "d", "low", "q1"⟩,
      ⟨"c", "k2", "d", "critical", "q2"⟩, ⟨"c", "k3", "d", "critical", "q3"⟩] 2).2.2.2.1 0,
   (C9_generate_questions_stable_top [] 0).2.2.2.2.2.2.2.2.2 "unknown" (by decide)⟩

end ReqGuard
